import Mathlib

/-!
Verification of the mcp-lc-demo repository: a shallow embedding of the
backend query logic (`src/backends/langchain_backend.py`,
`src/backends/mcp_backend.py`), the utility tool set
(`src/backends/langchain_tools.py`) and the mode dispatcher (`src/app.py`),
together with theorems settling the specification claims.

Modelling conventions:
* Python numbers are modelled as exact rationals (the source computes with
  IEEE floats; all constants in the source are decimal literals, so the
  rational model is the ideal-arithmetic reading of the code).
* Python `None`-or-string fields and optional dict keys are `Option String`.
* External collaborators (the hosted Voicebox service, the translation API,
  the agent runtime transcript) are oracle parameters, exactly the data the
  source receives from them.
* String lowering and title-casing are modelled on the ASCII range
  (`Char.toLower`/`Char.toUpper`), which covers every string the claims and
  the fixed tables in the source involve.
-/

/-! ## Python string primitives used by the tools -/

/-- Model of Python `str.lower()` (ASCII range). -/
def pyLower (s : String) : String := String.mk (s.toList.map Char.toLower)

/-- Model of Python slicing `s[:n]`. -/
def pyTake (n : Nat) (s : String) : String := String.mk (s.toList.take n)

/-- Helper for substring search: does the second list occur at the head of the first? -/
def charsStartWith : List Char → List Char → Bool
  | _, [] => true
  | [], _ :: _ => false
  | b :: bs, a :: as => a == b && charsStartWith bs as

/-- Helper for substring search: does `needle` occur anywhere in the list? -/
def charsContain (needle : List Char) : List Char → Bool
  | [] => needle.isEmpty
  | c :: rest => charsStartWith (c :: rest) needle || charsContain needle rest

/-- Model of Python `needle in hay` on strings (substring containment). -/
def pyContains (hay needle : String) : Bool := charsContain needle.toList hay.toList

/-- Model of Python `str.title()`: the first character of every alphabetic run
is upper-cased and the rest of the run lower-cased (ASCII range).  The Boolean
accumulator records whether the previous character was alphabetic. -/
def titleCaseLoop : Bool → List Char → List Char
  | _, [] => []
  | prevAlpha, c :: rest =>
    if c.isAlpha then
      (if prevAlpha then c.toLower else c.toUpper) :: titleCaseLoop true rest
    else
      c :: titleCaseLoop false rest

/-- Model of Python `str.title()`. -/
def titleCase (s : String) : String := String.mk (titleCaseLoop false s.toList)

/-! ## Kernel-evaluable rational arithmetic

Mathlib's field operations on `ℚ` do not reduce inside the kernel, so the
executable parts of the model use the following operations, written through
`mkRat`, `Rat.divInt` and integer arithmetic only.  The theorems `pyAdd_eq`,
`pySub_eq`, `pyMul_eq`, `pyNeg_eq`, `pyDivQ_eq` and `pyPowNat_eq` below
identify each with the corresponding field operation, so the model computes
exactly the ideal rational arithmetic. -/

/-- Kernel-evaluable rational addition (equals `a + b`). -/
def pyAdd (a b : ℚ) : ℚ := mkRat (a.num * b.den + b.num * a.den) (a.den * b.den)

/-- Kernel-evaluable rational subtraction (equals `a - b`). -/
def pySub (a b : ℚ) : ℚ := mkRat (a.num * b.den - b.num * a.den) (a.den * b.den)

/-- Kernel-evaluable rational multiplication (equals `a * b`). -/
def pyMul (a b : ℚ) : ℚ := mkRat (a.num * b.num) (a.den * b.den)

/-- Kernel-evaluable rational negation (equals `-a`). -/
def pyNeg (a : ℚ) : ℚ := mkRat (-a.num) a.den

/-- Kernel-evaluable rational inverse (equals `a⁻¹`). -/
def pyInvQ (a : ℚ) : ℚ := Rat.divInt a.den a.num

/-- Kernel-evaluable rational division (equals `a / b`). -/
def pyDivQ (a b : ℚ) : ℚ := pyMul a (pyInvQ b)

/-- Kernel-evaluable rational power with a natural exponent (equals `a ^ n`). -/
def pyPowNat (a : ℚ) : ℕ → ℚ
  | 0 => 1
  | n + 1 => pyMul (pyPowNat a n) a

/-! ## Python rounding

Python `round(x, 2)` rounds half to even.  On the exact rationals of the
model this is `roundHalfEven (x * 100) / 100`. -/

/-- Round a rational to the nearest integer, ties to even. -/
def roundHalfEven (q : ℚ) : ℤ :=
  let f := q.floor
  let r := pySub q (mkRat f 1)
  if r < mkRat 1 2 then f
  else if mkRat 1 2 < r then f + 1
  else if f % 2 = 0 then f else f + 1

/-- Model of Python `round(q, 2)`: `roundHalfEven (q * 100) / 100`. -/
def pythonRound2 (q : ℚ) : ℚ := mkRat (roundHalfEven (pyMul q 100)) 100

/-! ## `detect_language` (src/backends/langchain_tools.py, lines 16-39) -/

/-- Spanish keyword list of `detect_language`, verbatim from the source. -/
def spanish_keywords : List String :=
  ["qué", "cuál", "cuáles", "cómo", "dónde", "por", "para", "el", "la",
   "los", "las", "lista", "productos", "producto"]

/-- German keyword list of `detect_language`, verbatim from the source. -/
def german_keywords : List String :=
  ["wie", "was", "wo", "der", "die", "das", "und", "für", "über"]

/-- Embedding of `detect_language`: counts case-insensitive substring
occurrences of the fixed keyword lists and returns "Spanish" if any Spanish
keyword occurs, else "German" if any German keyword occurs, else "English". -/
def detect_language (text : String) : String :=
  let text_lower := pyLower text
  let spanish_count := spanish_keywords.countP (fun k => pyContains text_lower k)
  let german_count := german_keywords.countP (fun k => pyContains text_lower k)
  if spanish_count > 0 then "Spanish"
  else if german_count > 0 then "German"
  else "English"

/-! ## `translate_text` and `_mock_translate` (langchain_tools.py, lines 42-116) -/

/-- Fallback phrase table of `_mock_translate`, verbatim from the source. -/
def mock_translations : List ((String × String) × List (String × String)) :=
  [(("Spanish", "English"),
     [("¿Cuáles son los mejores productos?", "What are the best products?"),
      ("¿Cuál es el total de pedidos?", "What is the total of orders?"),
      ("Lista de 5 productos populares", "List of 5 popular products"),
      ("Muéstrame los clientes principales", "Show me the top customers")]),
   (("English", "Spanish"),
     [("The top products are", "Los mejores productos son"),
      ("The total is", "El total es"),
      ("Here are the results", "Aquí están los resultados")]),
   (("German", "English"),
     [("Was sind die besten Produkte?", "What are the best products?"),
      ("Zeige mir die Top-Kunden", "Show me the top customers")])]

/-- Embedding of `_mock_translate`: exact phrase lookup in the fixed table,
otherwise the bracketed pass-through string. -/
def mock_translate (text source_lang target_lang : String) : String :=
  let hit : Option String :=
    match mock_translations.find? (fun e => e.1 == (source_lang, target_lang)) with
    | some e => (e.2.find? (fun p => p.1 == text)).map (fun p => p.2)
    | none => none
  match hit with
  | some t => t
  | none => "[Translation " ++ source_lang ++ "→" ++ target_lang ++ "]: " ++ text

/-- Embedding of `translate_text`.  The external deep-translator call is the
oracle `ext` (the language-name-to-code mapping the source feeds it is folded
into the oracle); `ext ... = none` models both the ImportError path and an
exception from the translation API, in which case the source falls back to
`_mock_translate`.  Identity when source and target language coincide. -/
def translate_text (ext : String → String → String → Option String)
    (text source_lang target_lang : String) : String :=
  if source_lang == target_lang then text
  else
    match ext text source_lang target_lang with
    | some t => t
    | none => mock_translate text source_lang target_lang

/-! ## `calculate_distance` (langchain_tools.py, lines 123-166) -/

/-- City-pair distance table of `calculate_distance`, verbatim from the source. -/
def city_distances : List ((String × String) × ℚ) :=
  [(("Los Angeles", "San Francisco"), 383),
   (("Los Angeles", "San Diego"), 120),
   (("Los Angeles", "Las Vegas"), 270),
   (("San Francisco", "Los Angeles"), 383),
   (("San Francisco", "Sacramento"), 88),
   (("San Francisco", "San Jose"), 48),
   (("New York", "Boston"), 215),
   (("New York", "Philadelphia"), 95),
   (("Chicago", "Detroit"), 283),
   (("Chicago", "Milwaukee"), 92)]

/-- Python dict lookup in the distance table (the keys are pairwise distinct,
so `find?` agrees with the dict). -/
def lookupPair (k : String × String) : Option ℚ :=
  (city_distances.find? (fun e => e.1 == k)).map (fun e => e.2)

/-- Model of Python `str.strip()`: drop ASCII whitespace from both ends (a
direct list recursion, used instead of `String.trim` so the definition
reduces by evaluation). -/
def pyStrip (s : String) : String :=
  String.mk (((s.toList.dropWhile Char.isWhitespace).reverse.dropWhile
    Char.isWhitespace).reverse)

/-- Normalisation applied by `calculate_distance`: `strip()` then `title()`. -/
def normLoc (s : String) : String := titleCase (pyStrip s)

/-- Embedding of `calculate_distance`: normalise both locations, look the pair
up in both orders, default to 250.0. -/
def calculate_distance (location1 location2 : String) : ℚ :=
  let loc1 := normLoc location1
  let loc2 := normLoc location2
  match lookupPair (loc1, loc2) with
  | some v => v
  | none =>
    match lookupPair (loc2, loc1) with
    | some v => v
    | none => 250

/-! ## `calculate_shipping_cost` (langchain_tools.py, lines 169-206) -/

/-- Return dictionary of `calculate_shipping_cost`. -/
structure ShippingResult where
  shipping_cost : ℚ
  rate_per_mile : ℚ
  tier : String
  distance_miles : ℚ
  order_value : ℚ
deriving DecidableEq, Repr

/-- Embedding of `calculate_shipping_cost`: tier and rate selected by
`order_value` (`< 20`, `<= 100`, else), cost rounded to two decimals. -/
def calculate_shipping_cost (distance_miles order_value : ℚ) : ShippingResult :=
  let rate : ℚ := if order_value < 20 then mkRat 1 2 else if order_value ≤ 100 then mkRat 1 5 else mkRat 3 10
  let tier : String :=
    if order_value < 20 then "Small order (<$20)"
    else if order_value ≤ 100 then "Medium order ($20-$100)"
    else "Large order (>$100)"
  { shipping_cost := pythonRound2 (pyMul distance_miles rate),
    rate_per_mile := rate,
    tier := tier,
    distance_miles := distance_miles,
    order_value := order_value }

/-! ## `calculator` (langchain_tools.py, lines 213-235)

The source checks every character of the expression against a whitelist and
then hands the string to Python `eval`.  The whitelist admits only numeric
literals, `+ - * / ( ) .` and space, so the reachable fragment of `eval` is
plain arithmetic: binary `+ - * /`, floor division `//`, power `**`, unary
signs and parentheses.  `pyEvalArith` below is that fragment over exact
rationals.  A power with a non-integer exponent (e.g. "4**0.5") is evaluated
by the source as an IEEE float power, whose value is in general irrational;
the evaluator marks such values `PyVal.flt` and the modelled `calculator`
returns `none` for expressions carrying them, making no claim about the
source's result (a rounded float for "4**0.5", an error string for
complex-valued corners such as "(-2)**0.5") instead of misreporting it. -/

/-- Conversation-id state of a backend instance. -/
structure BackendState where
  conversation_id : Option String
deriving DecidableEq, Repr

/-- Python truthiness of `self.conversation_id` (`None` and `""` are falsy). -/
def truthyId : Option String → Bool
  | none => false
  | some s => !(s == "")

/-- Embedding of `reset_conversation` (both backends): clear the id. -/
def reset_conversation (_st : BackendState) : BackendState :=
  { conversation_id := none }

/-- Outgoing request of the LangChain backend: the `input_data` dict, with the
`conversation_id` key added only when the stored id is truthy. -/
structure LCRequest where
  question : String
  conversation_id : Option String
deriving DecidableEq, Repr

/-- Result dict returned by `VoiceboxAskRunnable.ainvoke`; `Option` fields are
dict-key presence. -/
structure SvcResult where
  answer : Option String
  conversation_id : Option String
deriving DecidableEq, Repr

/-- Response dict of `LangChainBackend.query`. -/
structure LCResponse where
  answer : String
  conversation_id : String
deriving DecidableEq, Repr

/-- Request construction of `LangChainBackend.query` (lines 67-69). -/
def LC_request (st : BackendState) (question : String) : LCRequest :=
  { question := question,
    conversation_id := if truthyId st.conversation_id then st.conversation_id else none }

/-- Embedding of `LangChainBackend.query`.  The oracle `svc` is the awaited
`ainvoke` call: `.error e` is an exception with message `e`, `.ok r` the
result dict.  On an exception the wrapped error is raised and the state is
untouched; on success the stored id is replaced when the result carries one,
and the response dict is built with the source's defaults. -/
def LC_query (st : BackendState) (svc : LCRequest → Except String SvcResult)
    (question : String) : Except String LCResponse × BackendState :=
  match svc (LC_request st question) with
  | Except.error e => (Except.error ("LangChain backend query failed: " ++ e), st)
  | Except.ok r =>
    let st' : BackendState :=
      match r.conversation_id with
      | some cid => { conversation_id := some cid }
      | none => st
    (Except.ok { answer := r.answer.getD "No answer generated.",
                 conversation_id := r.conversation_id.getD "" }, st')

/-! ## The MCP simple query (src/backends/mcp_backend.py, lines 43-127)

The transport outcome distinguishes the source's three handlers: an
`httpx.HTTPError`, a `json.JSONDecodeError` (from `response.json()` or from
`json.loads` on the nested content text), and a successful JSON-RPC envelope.
The envelope may carry a top-level `error`, and its `result` may be a dict
with a `content` list (whose first item may or may not have a `text` field to
parse) or a plain payload dict.  With an empty `content` list the source
binds `data` to that list and `data.get(...)` raises `AttributeError`
(message modelled without its quote characters), which the catch-all handler
wraps. -/

/-- Payload dict of the Voicebox Q&A contract, as extracted by the MCP
backend; `Option` fields are dict-key presence.  Raw result rows are opaque
records, modelled as strings. -/
structure VoiceboxData where
  answer : Option String
  sparql_query : Option String
  results : Option (List String)
deriving DecidableEq, Repr

/-- Extra field of `VoiceboxData` kept separate so the structure mirrors the
`data` dict: the conversation id key. -/
structure VoiceboxPayload extends VoiceboxData where
  conversation_id : Option String
deriving DecidableEq, Repr

/-- Item of the MCP `content` array: either it has a `text` field whose JSON
parse succeeds or fails, or it is taken as the payload itself. -/
inductive ContentItem
  | textItem (parsed : Except String VoiceboxPayload)
  | plainItem (data : VoiceboxPayload)
deriving Repr

/-- Shape of the JSON-RPC `result` field. -/
inductive MCPResult
  | withContent (content : List ContentItem)
  | plain (data : VoiceboxPayload)
deriving Repr

/-- JSON-RPC response envelope: optional top-level `error`, optional `result`
(an absent `result` is the source's `result.get("result", {})` default). -/
structure MCPEnvelope where
  error : Option String
  result : Option MCPResult
deriving Repr

/-- Outcome of the HTTP POST plus `response.json()`. -/
inductive MCPOutcome
  | httpError (msg : String)
  | jsonError (msg : String)
  | ok (env : MCPEnvelope)
deriving Repr

/-- Arguments dict of the outgoing `voicebox_ask` tool call; the
`conversation_id` key is added only when the stored id is truthy. -/
structure MCPArguments where
  question : String
  conversation_id : Option String
deriving DecidableEq, Repr

/-- Response dict of `MCPBackend.query`. -/
structure MCPResponse where
  answer : String
  sparql : String
  results : List String
  conversation_id : String
deriving DecidableEq, Repr

/-- Request construction of `MCPBackend.query` (lines 58-72). -/
def MCP_request (st : BackendState) (question : String) : MCPArguments :=
  { question := question,
    conversation_id := if truthyId st.conversation_id then st.conversation_id else none }

/-- Tail of `MCPBackend.query` once the payload dict `data` is extracted:
update the stored id when present and build the response dict with the
source's defaults. -/
def MCP_finish (st : BackendState) (d : VoiceboxPayload) :
    Except String MCPResponse × BackendState :=
  let st' : BackendState :=
    match d.conversation_id with
    | some cid => { conversation_id := some cid }
    | none => st
  (Except.ok { answer := d.answer.getD "No answer generated.",
               sparql := d.sparql_query.getD "",
               results := d.results.getD [],
               conversation_id := d.conversation_id.getD "" }, st')

/-- Embedding of `MCPBackend.query`: dispatch on the transport outcome and
the envelope shape exactly as the source's parse sequence and handlers do. -/
def MCP_query (st : BackendState) (svc : MCPArguments → MCPOutcome)
    (question : String) : Except String MCPResponse × BackendState :=
  match svc (MCP_request st question) with
  | MCPOutcome.httpError e => (Except.error ("MCP backend HTTP error: " ++ e), st)
  | MCPOutcome.jsonError e => (Except.error ("MCP backend JSON parse error: " ++ e), st)
  | MCPOutcome.ok env =>
    match env.error with
    | some err => (Except.error ("MCP backend query failed: MCP error: " ++ err), st)
    | none =>
      match env.result with
      | some (MCPResult.withContent []) =>
        (Except.error "MCP backend query failed: list object has no attribute get", st)
      | some (MCPResult.withContent (ContentItem.textItem (Except.error e) :: _)) =>
        (Except.error ("MCP backend JSON parse error: " ++ e), st)
      | some (MCPResult.withContent (ContentItem.textItem (Except.ok d) :: _)) =>
        MCP_finish st d
      | some (MCPResult.withContent (ContentItem.plainItem d :: _)) =>
        MCP_finish st d
      | some (MCPResult.plain d) => MCP_finish st d
      | none => MCP_finish st { answer := none, sparql_query := none,
                                results := none, conversation_id := none }

/-- Failing transport outcomes of `MCPBackend.query`: every case of the parse
sequence that raises before a payload dict is extracted. -/
def MCP_isFailure : MCPOutcome → Bool
  | MCPOutcome.httpError _ => true
  | MCPOutcome.jsonError _ => true
  | MCPOutcome.ok env =>
    match env.error with
    | some _ => true
    | none =>
      match env.result with
      | some (MCPResult.withContent []) => true
      | some (MCPResult.withContent (ContentItem.textItem (Except.error _) :: _)) => true
      | _ => false

/-- Underlying cause message of a failing outcome (the `str(e)` the source
interpolates into its wrapper messages). -/
def MCP_causeOf : MCPOutcome → String
  | MCPOutcome.httpError e => e
  | MCPOutcome.jsonError e => e
  | MCPOutcome.ok env =>
    match env.error with
    | some err => "MCP error: " ++ err
    | none =>
      match env.result with
      | some (MCPResult.withContent (ContentItem.textItem (Except.error e) :: _)) => e
      | _ => "list object has no attribute get"

/-! ## `query_with_chain` (langchain_backend.py, lines 219-318)

The translation chain is four composed steps over a shared `chain_steps`
list: detect the language (always recorded), translate to English when the
detected language is not English, query Voicebox (recording the answer
truncated to 200 characters, updating the conversation id, and passing the
untruncated answer on), translate the answer back when the detected language
is not English.  Any exception is wrapped as `"Chain query failed: ..."`; an
unknown `chain_type` raises `ValueError("Unknown chain type: ...")` inside
the same `try`, so it reaches the caller through that same wrapper. -/

/-- Entry of the `chain_steps` list. -/
structure ChainStep where
  step : String
  result : String
deriving DecidableEq, Repr

/-- Response dict of `query_with_chain`. -/
structure ChainResponse where
  answer : String
  original_question : String
  detected_language : String
  chain_steps : List ChainStep
  mode : String
deriving DecidableEq, Repr

/-- Embedding of `LangChainBackend.query_with_chain`.  `svc` is the awaited
`ainvoke` of the Voicebox step (the same call shape as the simple query);
`ext` is the external translation oracle of `translate_text`. -/
def query_with_chain (st : BackendState) (svc : LCRequest → Except String SvcResult)
    (ext : String → String → String → Option String)
    (question : String) (chain_type : String) :
    Except String ChainResponse × BackendState :=
  if chain_type == "translation" then
    let lang := detect_language question
    let steps1 : List ChainStep := [{ step := "detect_language", result := lang }]
    let working : String × List ChainStep :=
      if !(lang == "English") then
        let translated := translate_text ext question lang "English"
        (translated, steps1 ++ [{ step := "translate_to_english", result := translated }])
      else (question, steps1)
    match svc (LC_request st working.1) with
    | Except.error e => (Except.error ("Chain query failed: " ++ e), st)
    | Except.ok r =>
      let answer := r.answer.getD ""
      let steps3 := working.2 ++ [{ step := "voicebox_query", result := pyTake 200 answer }]
      let st' : BackendState :=
        match r.conversation_id with
        | some cid => { conversation_id := some cid }
        | none => st
      let final : String × List ChainStep :=
        if !(lang == "English") then
          let translated := translate_text ext answer "English" lang
          (translated, steps3 ++ [{ step := "translate_to_source", result := translated }])
        else (answer, steps3)
      (Except.ok { answer := final.1, original_question := question,
                   detected_language := lang, chain_steps := final.2,
                   mode := "chain" }, st')
  else
    (Except.error ("Chain query failed: Unknown chain type: " ++ chain_type), st)

/-! ## `query_with_agent` (langchain_backend.py, lines 102-213)

The agent runtime is external; what the source owns is the walk over the
returned message transcript.  Every message with `content` and `type`
attributes is inspected: an `"ai"` message overwrites `answer`; a message
with a non-empty `tool_calls` attribute appends one `{tool, input, output}`
entry per call with empty output; otherwise a `"tool"` message stores its
content (truncated to 200 characters) into the output of the LAST entry of
the list, if the list is non-empty. -/

/-- Entry of the `tool_calls` list of the agent response. -/
structure ToolCallEntry where
  tool : String
  input : String
  output : String
deriving DecidableEq, Repr

/-- Message of the agent runtime transcript: the `type` tag, the `content`
string, and the `tool_calls` attribute as a list of (name, args) pairs (an
absent or empty attribute is the empty list; args dicts are opaque and kept
as strings). -/
structure AgentMessage where
  type : String
  content : String
  tool_calls : List (String × String)
deriving DecidableEq, Repr

/-- Overwrite the output of the last entry of a tool-call list; identity on
the empty list (the source's `if tool_calls_list:` guard). -/
def setLastOutput (out : String) : List ToolCallEntry → List ToolCallEntry
  | [] => []
  | [e] => [{ e with output := out }]
  | e :: e' :: rest => e :: setLastOutput out (e' :: rest)

/-- Loop body of the transcript walk of `query_with_agent` (lines 183-199),
acting on the `(answer, tool_calls_list)` accumulator. -/
def agentStep (acc : String × List ToolCallEntry) (msg : AgentMessage) :
    String × List ToolCallEntry :=
  let answer := if msg.type == "ai" then msg.content else acc.1
  let lst :=
    if !msg.tool_calls.isEmpty then
      acc.2 ++ msg.tool_calls.map (fun tc => { tool := tc.1, input := tc.2, output := "" })
    else if msg.type == "tool" then
      setLastOutput (pyTake 200 msg.content) acc.2
    else acc.2
  (answer, lst)

/-- Response dict of `query_with_agent`. -/
structure AgentResponse where
  answer : String
  tool_calls : List ToolCallEntry
  agent_steps : ℕ
  mode : String
deriving DecidableEq, Repr

/-- Embedding of the transcript-processing part of
`LangChainBackend.query_with_agent`: fold the loop body over the transcript,
then build the response with the `answer or "No answer generated."`
default. -/
def query_with_agent (messages : List AgentMessage) : AgentResponse :=
  let acc := messages.foldl agentStep ("", [])
  { answer := if acc.1 == "" then "No answer generated." else acc.1,
    tool_calls := acc.2,
    agent_steps := acc.2.length,
    mode := "agent" }

/-! ## The mode dispatcher (src/app.py, lines 362-369)

Per user turn the app picks `query_with_agent` when the selected mode is
"agent" and the backend has that attribute, `query_with_chain` when the mode
is "chain" and the backend has that attribute, and plain `query` otherwise.
Capability is a static property of the backend class: `LangChainBackend`
defines both methods, `MCPBackend` defines neither. -/

/-- Backend method chosen by a dispatch. -/
inductive DispatchChoice
  | agent | chain | simple
deriving DecidableEq, Repr

/-- Embedding of the `if/elif/else` dispatch of `main`; the Booleans are the
two `hasattr` probes. -/
def dispatch (query_mode : String) (has_agent has_chain : Bool) : DispatchChoice :=
  if query_mode == "agent" && has_agent then DispatchChoice.agent
  else if query_mode == "chain" && has_chain then DispatchChoice.chain
  else DispatchChoice.simple

/-- Capability probe `hasattr(backend, "query_with_agent")` on `MCPBackend`:
the class defines no such method. -/
def MCP_has_agent : Bool := false

/-- Capability probe `hasattr(backend, "query_with_chain")` on `MCPBackend`:
the class defines no such method. -/
def MCP_has_chain : Bool := false

/-- Capability probe `hasattr(backend, "query_with_agent")` on
`LangChainBackend`. -/
def LC_has_agent : Bool := true

/-- Capability probe `hasattr(backend, "query_with_chain")` on
`LangChainBackend`. -/
def LC_has_chain : Bool := true

/-- Response as consumed by `render_assistant_response`: optional keys of the
response dict are `Option` fields; a simple-mode response dict carries no
`tool_calls` key. -/
structure AppResponse where
  answer : String
  tool_calls : Option (List ToolCallEntry)
  chain_steps : Option (List ChainStep)
  conversation_id : Option String
deriving DecidableEq, Repr

/-- View of an `MCPBackend.query` response dict at the rendering layer: the
dict has no `tool_calls` and no `chain_steps` key. -/
def appOfMCP (r : MCPResponse) : AppResponse :=
  { answer := r.answer, tool_calls := none, chain_steps := none,
    conversation_id := some r.conversation_id }

/-! ## Spec-side readings of the agent transcript contract

The specification describes the transcript walk as pairing tool-result
messages one-to-one, in order, with the open tool-call entries they answer.
`claimAgentSpec` is that description, written from the claim's words; it is
compared against the source embedding `query_with_agent`.  `amendedAgentSpec`
is the amended description (each tool result overwrites the output of the
most recently appended entry), written with a different algorithm so that the
agreement theorem is a genuine equivalence. -/

/-- Overwrite the output of the entry at a given index (used by the claim's
one-to-one pairing); identity when the index is out of range. -/
def setOutputAt (out : String) : ℕ → List ToolCallEntry → List ToolCallEntry
  | _, [] => []
  | 0, e :: rest => { e with output := out } :: rest
  | i + 1, e :: rest => e :: setOutputAt out i rest

/-- Loop body of the claim's reading: tool calls append open entries; the
k-th tool-result message fills the k-th entry (the counter is the second
component); a result with no open entry left is ignored. -/
def specPairStep (acc : List ToolCallEntry × ℕ) (msg : AgentMessage) :
    List ToolCallEntry × ℕ :=
  if !msg.tool_calls.isEmpty then
    (acc.1 ++ msg.tool_calls.map (fun tc => { tool := tc.1, input := tc.2, output := "" }),
     acc.2)
  else if msg.type == "tool" then
    if acc.2 < acc.1.length then
      (setOutputAt (pyTake 200 msg.content) acc.2 acc.1, acc.2 + 1)
    else acc
  else acc

/-- Agent response as the claim describes it: answer is the content of the
last assistant message (sentinel only when there is none), and tool results
pair one-to-one by order with the open tool-call entries. -/
def claimAgentSpec (messages : List AgentMessage) : AgentResponse :=
  let answer : String :=
    match (messages.filter (fun m => m.type == "ai")).getLast? with
    | some m => m.content
    | none => "No answer generated."
  let tcl := (messages.foldl specPairStep ([], 0)).1
  { answer := answer, tool_calls := tcl, agent_steps := tcl.length, mode := "agent" }

/-- Content of the last assistant message of a transcript, or `""` when there
is none. -/
def answerOfTranscript (messages : List AgentMessage) : String :=
  match (messages.filter (fun m => m.type == "ai")).getLast? with
  | some m => m.content
  | none => ""

/-- Tool-call list of the amended reading, accumulated in reverse so that the
most recently appended entry is the head: a tool-result message overwrites
the output of that head entry (and is ignored when no entry exists yet). -/
def amendedLoop : List ToolCallEntry → List AgentMessage → List ToolCallEntry
  | acc, [] => acc.reverse
  | acc, msg :: rest =>
    if msg.tool_calls.isEmpty then
      if msg.type == "tool" then
        match acc with
        | [] => amendedLoop [] rest
        | e :: es => amendedLoop ({ e with output := pyTake 200 msg.content } :: es) rest
      else amendedLoop acc rest
    else
      amendedLoop
        ((msg.tool_calls.map (fun tc => { tool := tc.1, input := tc.2, output := "" })).reverse
          ++ acc) rest

/-- Agent response as the amended claim describes it: answer is the content
of the last assistant message when non-empty (sentinel otherwise), one entry
per tool invocation in transcript order, and each tool-result message
overwrites the output of the most recently appended entry. -/
def amendedAgentSpec (messages : List AgentMessage) : AgentResponse :=
  let answer := answerOfTranscript messages
  let tcl := amendedLoop [] messages
  { answer := if answer == "" then "No answer generated." else answer,
    tool_calls := tcl, agent_steps := tcl.length, mode := "agent" }

/-- Transcript with one assistant message opening two tool calls, followed by
the two tool results in order: exactly the shape the agent runtime produces
for a two-tool turn. -/
def c1_transcript : List AgentMessage :=
  [{ type := "ai", content := "",
     tool_calls := [("calculator", "2+2"), ("calculate_distance", "Chicago|Detroit")] },
   { type := "tool", content := "4", tool_calls := [] },
   { type := "tool", content := "283", tool_calls := [] },
   { type := "ai", content := "The shipping cost is 141.5", tool_calls := [] }]

/-! ## Theorems -/

theorem pyAdd_eq (a b : ℚ) : pyAdd a b = a + b := (Rat.add_def' a b).symm

theorem pySub_eq (a b : ℚ) : pySub a b = a - b := (Rat.sub_def' a b).symm

theorem pyMul_eq (a b : ℚ) : pyMul a b = a * b := by
  unfold pyMul
  rw [Rat.mul_def, Rat.normalize_eq_mkRat]

theorem pyNeg_eq (a : ℚ) : pyNeg a = -a := by
  unfold pyNeg
  rw [← Rat.neg_mkRat, Rat.mkRat_self]

theorem pyInvQ_eq (a : ℚ) : pyInvQ a = a⁻¹ := by
  unfold pyInvQ
  rw [← Rat.inv_def]
  rfl

theorem pyDivQ_eq (a b : ℚ) : pyDivQ a b = a / b := by
  unfold pyDivQ
  rw [pyMul_eq, pyInvQ_eq, div_eq_mul_inv]

theorem pyPowNat_eq (a : ℚ) (n : ℕ) : pyPowNat a n = a ^ n := by
  induction n with
  | zero => simp [pyPowNat]
  | succ n ih => rw [pyPowNat, pyMul_eq, ih, pow_succ]

theorem setLastOutput_concat (out : String) (xs : List ToolCallEntry) (x : ToolCallEntry) :
    setLastOutput out (xs ++ [x]) = xs ++ [{ x with output := out }] := by
  induction xs with
  | nil => rfl
  | cons y ys ih =>
    cases hys : ys ++ [x] with
    | nil => exact absurd hys (by simp)
    | cons z zs =>
      simp only [List.cons_append, hys, setLastOutput]
      rw [← hys, ih]

theorem agentStep_answer (msgs : List AgentMessage) (a : String) (l : List ToolCallEntry) :
    (msgs.foldl agentStep (a, l)).1 =
      match (msgs.filter (fun m => m.type == "ai")).getLast? with
      | some m => m.content
      | none => a := by
  induction msgs using List.reverseRecOn with
  | nil => simp
  | append_singleton rest m ih =>
    rw [List.foldl_append, List.filter_append]
    by_cases hm : (m.type == "ai") = true
    · simp [agentStep, hm, List.getLast?_concat]
    · simp only [List.foldl_cons, List.foldl_nil]
      have : (agentStep (rest.foldl agentStep (a, l)) m).1 = (rest.foldl agentStep (a, l)).1 := by
        simp [agentStep, hm]
      rw [this, ih]
      simp [List.filter_cons, hm]

theorem agentStep_list (msgs : List AgentMessage) :
    ∀ (acc : List ToolCallEntry) (a : String),
    (msgs.foldl agentStep (a, acc.reverse)).2 = amendedLoop acc msgs := by
  induction msgs with
  | nil => intro acc a; simp [amendedLoop]
  | cons m rest ih =>
    intro acc a
    by_cases hnc : m.tool_calls.isEmpty = true
    · by_cases ht : (m.type == "tool") = true
      · cases acc with
        | nil =>
          have h2 : (agentStep (a, ([] : List ToolCallEntry).reverse) m).2 =
              ([] : List ToolCallEntry).reverse := by
            simp [agentStep, hnc, ht, setLastOutput]
          have hp : agentStep (a, ([] : List ToolCallEntry).reverse) m =
              ((agentStep (a, ([] : List ToolCallEntry).reverse) m).1,
               ([] : List ToolCallEntry).reverse) := by
            exact Prod.ext_iff.mpr ⟨rfl, h2⟩
          rw [List.foldl_cons, hp, ih []]
          simp only [amendedLoop, hnc, ht]
          simp
        | cons e es =>
          have h2 : (agentStep (a, (e :: es).reverse) m).2 =
              ({ e with output := pyTake 200 m.content } :: es).reverse := by
            simp only [agentStep, hnc, Bool.not_true, Bool.false_eq_true, if_false, ht, if_true]
            rw [List.reverse_cons, setLastOutput_concat, List.reverse_cons]
          have hp : agentStep (a, (e :: es).reverse) m =
              ((agentStep (a, (e :: es).reverse) m).1,
               ({ e with output := pyTake 200 m.content } :: es).reverse) := by
            exact Prod.ext_iff.mpr ⟨rfl, h2⟩
          rw [List.foldl_cons, hp, ih ({ e with output := pyTake 200 m.content } :: es)]
          simp only [amendedLoop, hnc, ht]
          simp
      · have h2 : (agentStep (a, acc.reverse) m).2 = acc.reverse := by
          simp [agentStep, hnc, ht]
        have hp : agentStep (a, acc.reverse) m =
            ((agentStep (a, acc.reverse) m).1, acc.reverse) := by
          exact Prod.ext_iff.mpr ⟨rfl, h2⟩
        rw [List.foldl_cons, hp, ih acc]
        simp only [amendedLoop, hnc]
        simp [ht]
    · simp only [Bool.not_eq_true] at hnc
      have h2 : (agentStep (a, acc.reverse) m).2 =
          ((m.tool_calls.map
              (fun tc => ({ tool := tc.1, input := tc.2, output := "" } : ToolCallEntry))).reverse
            ++ acc).reverse := by
        simp [agentStep, hnc]
      have hp : agentStep (a, acc.reverse) m =
          ((agentStep (a, acc.reverse) m).1,
           ((m.tool_calls.map
               (fun tc => ({ tool := tc.1, input := tc.2, output := "" } : ToolCallEntry))).reverse
             ++ acc).reverse) := by
        exact Prod.ext_iff.mpr ⟨rfl, h2⟩
      rw [List.foldl_cons, hp,
        ih ((m.tool_calls.map
              (fun tc => ({ tool := tc.1, input := tc.2, output := "" } : ToolCallEntry))).reverse
            ++ acc)]
      simp only [amendedLoop, hnc]
      simp

/-- C1 counterexample: on a transcript with one assistant message opening two
tool calls followed by the two results in order, the source assigns every
result to the LAST entry of the list — the first result is written into the
second entry and then overwritten by the second result — so the produced
response differs from the claim's one-to-one-by-order pairing: the first
entry's output stays empty and the first result "4" is lost. -/
theorem c1_agent_pairing_counterexample :
    query_with_agent c1_transcript ≠ claimAgentSpec c1_transcript ∧
    (query_with_agent c1_transcript).tool_calls =
      [{ tool := "calculator", input := "2+2", output := "" },
       { tool := "calculate_distance", input := "Chicago|Detroit", output := "283" }] ∧
    (claimAgentSpec c1_transcript).tool_calls =
      [{ tool := "calculator", input := "2+2", output := "4" },
       { tool := "calculate_distance", input := "Chicago|Detroit", output := "283" }] := by
  refine ⟨?_, ?_, ?_⟩ <;> decide

/-- C1 (amended): for every agent-runtime transcript, `query_with_agent`
returns as answer the content of the last assistant message when that content
is non-empty (the sentinel "No answer generated." when there is no assistant
message or its content is empty), appends one `{tool, input, output}` entry
per tool invocation in transcript order, lets each tool-result message
overwrite the output of the most recently appended tool-call entry
(truncated to 200 characters; a result arriving when no entry exists is
ignored), and sets `agent_steps` to the length of `tool_calls`. -/
theorem c1_amended_agent_transcript (messages : List AgentMessage) :
    query_with_agent messages = amendedAgentSpec messages := by
  have h1 := agentStep_answer messages "" []
  have h2 := agentStep_list messages [] ""
  simp only [List.reverse_nil] at h2
  simp only [query_with_agent, amendedAgentSpec, answerOfTranscript]
  rw [h1, h2]

/-- C2: for every question, backend state, translation oracle and successful
service, the translation chain produces exactly the four ordered steps
`detect_language, translate_to_english, voicebox_query, translate_to_source`
when the detected language is not English, and exactly the two steps
`detect_language, voicebox_query` when it is English; the recorded step list
is exactly these entries in this order (append-only, never reordered), and
each step's output is the next step's input: the translated question is what
is sent to the service, and the service answer (recorded truncated to 200
characters) is what is translated back. -/
theorem c2_chain_steps (st : BackendState) (svcF : LCRequest → SvcResult)
    (ext : String → String → String → Option String) (q : String) :
    (query_with_chain st (fun r => Except.ok (svcF r)) ext q "translation").1 =
      (if detect_language q == "English" then
        Except.ok
          { answer := (svcF (LC_request st q)).answer.getD "",
            original_question := q,
            detected_language := detect_language q,
            chain_steps :=
              [{ step := "detect_language", result := detect_language q },
               { step := "voicebox_query",
                 result := pyTake 200 ((svcF (LC_request st q)).answer.getD "") }],
            mode := "chain" }
      else
        let lang := detect_language q
        let tq := translate_text ext q lang "English"
        let ans := (svcF (LC_request st tq)).answer.getD ""
        Except.ok
          { answer := translate_text ext ans "English" lang,
            original_question := q,
            detected_language := lang,
            chain_steps :=
              [{ step := "detect_language", result := lang },
               { step := "translate_to_english", result := tq },
               { step := "voicebox_query", result := pyTake 200 ans },
               { step := "translate_to_source",
                 result := translate_text ext ans "English" lang }],
            mode := "chain" }) := by
  cases h : detect_language q == "English" with
  | false => simp [query_with_chain, h]
  | true => simp [query_with_chain, h]

/-- Helper: a string occurs as a substring of anything it is appended to on
the left. -/
theorem charsStartWith_refl (l : List Char) : charsStartWith l l = true := by
  induction l with
  | nil => rfl
  | cons c rest ih => simp [charsStartWith, ih]

/-- Helper: substring containment holds after prepending any text. -/
theorem charsContain_append (pre s : List Char) : charsContain s (pre ++ s) = true := by
  induction pre with
  | nil =>
    cases s with
    | nil => rfl
    | cons c rest => simp [charsContain, charsStartWith_refl]
  | cons p ps ih => simp [charsContain, ih]

/-- Helper: `pyContains (p ++ c) c` always holds. -/
theorem pyContains_append (p c : String) : pyContains (p ++ c) c = true := by
  unfold pyContains
  have : (p ++ c).toList = p.toList ++ c.toList := by
    simp [String.toList]
  rw [this]
  exact charsContain_append p.toList c.toList

/-- C3: for both backend variants, a failing simple-mode query raises a
single wrapped error whose message carries the underlying cause's message,
and leaves the backend's conversation id unchanged; the id is mutated only on
success.  For the LangChain variant the failure is an exception from the
awaited service call; for the MCP variant `MCP_isFailure` enumerates every
failing shape of the transport outcome (HTTP error, JSON decode error,
remote-reported error, unusable content) and `MCP_causeOf` the corresponding
cause message. -/
theorem c3_failure_preserves_state :
    (∀ (st : BackendState) (svc : LCRequest → Except String SvcResult) (q e : String),
      svc (LC_request st q) = Except.error e →
      LC_query st svc q = (Except.error ("LangChain backend query failed: " ++ e), st)) ∧
    (∀ (st : BackendState) (svc : MCPArguments → MCPOutcome) (q : String),
      MCP_isFailure (svc (MCP_request st q)) = true →
      (MCP_query st svc q).2 = st ∧
      ∃ w, (MCP_query st svc q).1 = Except.error w ∧
           pyContains w (MCP_causeOf (svc (MCP_request st q))) = true) := by
  constructor
  · intro st svc q e h
    unfold LC_query
    rw [h]
  · intro st svc q h
    unfold MCP_query MCP_isFailure at *
    cases o : svc (MCP_request st q) with
    | httpError e =>
      exact ⟨rfl, "MCP backend HTTP error: " ++ e, rfl,
        pyContains_append "MCP backend HTTP error: " e⟩
    | jsonError e =>
      exact ⟨rfl, "MCP backend JSON parse error: " ++ e, rfl,
        pyContains_append "MCP backend JSON parse error: " e⟩
    | ok env =>
      obtain ⟨err, res⟩ := env
      cases err with
      | some msg =>
        exact ⟨rfl, "MCP backend query failed: " ++ ("MCP error: " ++ msg), rfl,
          pyContains_append "MCP backend query failed: " ("MCP error: " ++ msg)⟩
      | none =>
        cases res with
        | none => rw [o] at h; simp at h
        | some r =>
          cases r with
          | plain d => rw [o] at h; simp at h
          | withContent content =>
            cases content with
            | nil =>
              exact ⟨rfl,
                "MCP backend query failed: list object has no attribute get", rfl,
                by decide⟩
            | cons item rest =>
              cases item with
              | plainItem d => rw [o] at h; simp at h
              | textItem parsed =>
                cases parsed with
                | ok d => rw [o] at h; simp at h
                | error e =>
                  exact ⟨rfl, "MCP backend JSON parse error: " ++ e, rfl,
                    pyContains_append "MCP backend JSON parse error: " e⟩

/-- C3 witness: a concrete LangChain transport failure and a concrete MCP
HTTP failure, instantiating the claim theorem. -/
theorem c3_witness :
    LC_query { conversation_id := some "abc" } (fun _ => Except.error "boom") "q" =
      (Except.error "LangChain backend query failed: boom",
       { conversation_id := some "abc" }) ∧
    (MCP_query { conversation_id := some "abc" }
        (fun _ => MCPOutcome.httpError "connection refused") "q").2 =
      { conversation_id := some "abc" } := by
  constructor
  · exact c3_failure_preserves_state.1 { conversation_id := some "abc" } _ "q" "boom" rfl
  · exact (c3_failure_preserves_state.2 { conversation_id := some "abc" }
      (fun _ => MCPOutcome.httpError "connection refused") "q" rfl).1

/-- C5: on both backend variants, after a successful simple-mode query whose
service response carries conversation id "abc123", the next outgoing request
includes "abc123" as its conversation id; after `reset_conversation` (which
clears the id unconditionally and is idempotent) the next outgoing request
omits the conversation id. -/
theorem c5_conversation_threading :
    (∀ (st : BackendState) (svc : LCRequest → Except String SvcResult) (q q' : String)
        (r : SvcResult),
      svc (LC_request st q) = Except.ok r → r.conversation_id = some "abc123" →
      LC_request (LC_query st svc q).2 q' =
        { question := q', conversation_id := some "abc123" } ∧
      LC_request (reset_conversation (LC_query st svc q).2) q' =
        { question := q', conversation_id := none }) ∧
    (∀ (st : BackendState) (svc : MCPArguments → MCPOutcome) (q q' : String)
        (d : VoiceboxPayload),
      svc (MCP_request st q) = MCPOutcome.ok { error := none, result := some (MCPResult.plain d) } →
      d.conversation_id = some "abc123" →
      MCP_request (MCP_query st svc q).2 q' =
        { question := q', conversation_id := some "abc123" } ∧
      MCP_request (reset_conversation (MCP_query st svc q).2) q' =
        { question := q', conversation_id := none }) ∧
    (∀ st : BackendState,
      reset_conversation (reset_conversation st) = reset_conversation st ∧
      (reset_conversation st).conversation_id = none) := by
  refine ⟨?_, ?_, ?_⟩
  · intro st svc q q' r hsvc hid
    have hst : (LC_query st svc q).2 = { conversation_id := some "abc123" } := by
      unfold LC_query
      rw [hsvc]
      simp [hid]
    rw [hst]
    constructor
    · simp [LC_request, truthyId]
    · simp [LC_request, reset_conversation, truthyId]
  · intro st svc q q' d hsvc hid
    have hst : (MCP_query st svc q).2 = { conversation_id := some "abc123" } := by
      unfold MCP_query
      rw [hsvc]
      simp [MCP_finish, hid]
    rw [hst]
    constructor
    · simp [MCP_request, truthyId]
    · simp [MCP_request, reset_conversation, truthyId]
  · intro st
    exact ⟨rfl, rfl⟩

/-- C5 witness: a concrete successful query on each variant, instantiating
the claim theorem at a mock service returning
`{answer: "42", conversation_id: "abc123"}`. -/
theorem c5_witness :
    LC_request
      (LC_query { conversation_id := none }
        (fun _ => Except.ok { answer := some "42", conversation_id := some "abc123" }) "hi").2
      "next" = { question := "next", conversation_id := some "abc123" } ∧
    MCP_request
      (MCP_query { conversation_id := none }
        (fun _ => MCPOutcome.ok
          { error := none,
            result := some (MCPResult.plain
              { answer := some "42", sparql_query := none, results := none,
                conversation_id := some "abc123" }) }) "hi").2
      "next" = { question := "next", conversation_id := some "abc123" } := by
  constructor
  · exact (c5_conversation_threading.1 { conversation_id := none }
      (fun _ => Except.ok { answer := some "42", conversation_id := some "abc123" })
      "hi" "next" { answer := some "42", conversation_id := some "abc123" } rfl rfl).1
  · exact (c5_conversation_threading.2.1 { conversation_id := none }
      (fun _ => MCPOutcome.ok
        { error := none,
          result := some (MCPResult.plain
            { answer := some "42", sparql_query := none, results := none,
              conversation_id := some "abc123" }) })
      "hi" "next"
      { answer := some "42", sparql_query := none, results := none,
        conversation_id := some "abc123" } rfl rfl).1

/-- C6: per user turn the dispatcher selects the agent path exactly when the
mode is "agent" and the backend exposes `query_with_agent`, the chain path
exactly when the mode is "chain" and the backend exposes `query_with_chain`,
and the plain query otherwise; in particular mode "agent" against the MCP
backend (which exposes neither capability) selects the plain query, whose
response dict carries no `tool_calls` key. -/
theorem c6_dispatch_fallback :
    (∀ (mode : String) (a c : Bool),
      (dispatch mode a c = DispatchChoice.agent ↔ mode = "agent" ∧ a = true) ∧
      (dispatch mode a c = DispatchChoice.chain ↔ mode = "chain" ∧ c = true)) ∧
    dispatch "agent" MCP_has_agent MCP_has_chain = DispatchChoice.simple ∧
    (∀ r : MCPResponse, (appOfMCP r).tool_calls = none) := by
  refine ⟨?_, rfl, fun r => rfl⟩
  intro mode a c
  by_cases hm : mode = "agent"
  · subst hm
    cases a <;> cases c <;> simp [dispatch]
  · by_cases hc2 : mode = "chain"
    · subst hc2
      cases a <;> cases c <;> simp [dispatch]
    · cases a <;> cases c <;> simp [dispatch, hm, hc2]

/-- C7 counterexample: at `order_value = 10 < 20` the source selects the tier
string "Small order (<$20)", not the claim's "Small order". -/
theorem c7_tier_string_counterexample :
    (10 : ℚ) < 20 ∧ (calculate_shipping_cost 100 10).tier ≠ "Small order" := by
  constructor <;> decide

/-- C7 (amended): for every numeric `order_value` and `distance_miles`,
`calculate_shipping_cost` selects rate 0.50/mi with tier "Small order (<$20)"
when `order_value < 20`, rate 0.20/mi with tier "Medium order ($20-$100)"
when `20 <= order_value <= 100` (both boundaries medium), and rate 0.30/mi
with tier "Large order (>$100)" when `order_value > 100`, and returns
`shipping_cost = round(distance_miles * rate, 2)`; the function is total, so
it never fails. -/
theorem c7_amended_shipping_tiers (d v : ℚ) :
    (v < 20 → calculate_shipping_cost d v =
      { shipping_cost := pythonRound2 (d * 0.50), rate_per_mile := 0.50,
        tier := "Small order (<$20)", distance_miles := d, order_value := v }) ∧
    (20 ≤ v → v ≤ 100 → calculate_shipping_cost d v =
      { shipping_cost := pythonRound2 (d * 0.20), rate_per_mile := 0.20,
        tier := "Medium order ($20-$100)", distance_miles := d, order_value := v }) ∧
    (100 < v → calculate_shipping_cost d v =
      { shipping_cost := pythonRound2 (d * 0.30), rate_per_mile := 0.30,
        tier := "Large order (>$100)", distance_miles := d, order_value := v }) := by
  have hr1 : mkRat 1 2 = (0.50 : ℚ) := by
    rw [Rat.mkRat_eq_divInt, Rat.divInt_eq_div]
    norm_num
  have hr2 : mkRat 1 5 = (0.20 : ℚ) := by
    rw [Rat.mkRat_eq_divInt, Rat.divInt_eq_div]
    norm_num
  have hr3 : mkRat 3 10 = (0.30 : ℚ) := by
    rw [Rat.mkRat_eq_divInt, Rat.divInt_eq_div]
    norm_num
  refine ⟨?_, ?_, ?_⟩
  · intro h
    simp [calculate_shipping_cost, h, hr1, pyMul_eq]
  · intro h1 h2
    have h3 : ¬ v < 20 := not_lt.mpr h1
    simp [calculate_shipping_cost, h3, h2, hr2, pyMul_eq]
  · intro h
    have h1 : ¬ v < 20 := by linarith
    have h2 : ¬ v ≤ 100 := not_le.mpr h
    simp [calculate_shipping_cost, h1, h2, hr3, pyMul_eq]

/-- C7 witness: both boundary values select the medium tier, `order_value`
just below 20 selects small, just above 100 selects large (the spec's
boundary checks), instantiating the amended theorem. -/
theorem c7_boundary_witness :
    (calculate_shipping_cost 100 20).tier = "Medium order ($20-$100)" ∧
    (calculate_shipping_cost 100 100).tier = "Medium order ($20-$100)" ∧
    (calculate_shipping_cost 100 (20 - 1/1000)).tier = "Small order (<$20)" ∧
    (calculate_shipping_cost 100 (100 + 1/1000)).tier = "Large order (>$100)" := by
  refine ⟨?_, ?_, ?_, ?_⟩
  · rw [(c7_amended_shipping_tiers 100 20).2.1 (by norm_num) (by norm_num)]
  · rw [(c7_amended_shipping_tiers 100 100).2.1 (by norm_num) (by norm_num)]
  · rw [(c7_amended_shipping_tiers 100 (20 - 1/1000)).1 (by norm_num)]
  · rw [(c7_amended_shipping_tiers 100 (100 + 1/1000)).2.2 (by norm_num)]

/-- C8 counterexample: with an unknown chain kind the error reaching the
caller IS the generic chain-failure wrapper — the `ValueError` is raised
inside the same `try` block and re-wrapped — so the surfaced error is not
distinct from that wrapper. -/
theorem c8_wrapper_counterexample :
    (query_with_chain { conversation_id := none }
        (fun _ => Except.ok { answer := some "a", conversation_id := none })
        (fun _ _ _ => none) "hello" "summarize").1 =
      Except.error ("Chain query failed: " ++ "Unknown chain type: summarize") := by
  have h : ("Chain query failed: " ++ "Unknown chain type: summarize" : String) =
      "Chain query failed: Unknown chain type: summarize" := by decide
  rw [h]
  rfl

/-- C8 (amended): calling `query_with_chain` with any chain kind other than
"translation" fails with the generic chain-failure wrapper carrying the
message "Unknown chain type: <kind>", before any network activity: the result
is identical for every service and translation oracle (neither is consulted)
and the conversation state is unchanged. -/
theorem c8_amended_unknown_chain (st : BackendState)
    (svc : LCRequest → Except String SvcResult)
    (ext : String → String → String → Option String) (q kind : String)
    (h : kind ≠ "translation") :
    query_with_chain st svc ext q kind =
      (Except.error ("Chain query failed: Unknown chain type: " ++ kind), st) := by
  have hc : ¬ ((kind == "translation") = true) := by simp [h]
  unfold query_with_chain
  rw [if_neg hc]

/-- C8 witness: a concrete unknown chain kind, instantiating the amended
theorem. -/
theorem c8_witness :
    query_with_chain { conversation_id := some "x" }
        (fun _ => Except.ok { answer := some "a", conversation_id := none })
        (fun _ _ _ => none) "q" "mapreduce" =
      (Except.error ("Chain query failed: Unknown chain type: " ++ "mapreduce"),
       { conversation_id := some "x" }) :=
  c8_amended_unknown_chain { conversation_id := some "x" }
    (fun _ => Except.ok { answer := some "a", conversation_id := none })
    (fun _ _ _ => none) "q" "mapreduce" (by decide)

/-- Helper: whenever both orderings of a pair are present in the distance
table they carry the same value (checked over the concrete table). -/
theorem city_distances_consistent :
    ∀ p ∈ city_distances, ∀ q ∈ city_distances,
      p.1.1 = q.1.2 → p.1.2 = q.1.1 → p.2 = q.2 := by decide

/-- Helper: a successful table lookup comes from a table entry. -/
theorem lookupPair_mem {k : String × String} {v : ℚ} (h : lookupPair k = some v) :
    ∃ e, e ∈ city_distances ∧ e.1 = k ∧ e.2 = v := by
  unfold lookupPair at h
  cases hf : city_distances.find? (fun e => e.1 == k) with
  | none => rw [hf] at h; simp at h
  | some e =>
    rw [hf] at h
    simp at h
    refine ⟨e, List.mem_of_find?_eq_some hf, ?_, h⟩
    have hp := List.find?_some hf
    simpa using hp

/-- Helper: values found for the two orderings of a pair agree. -/
theorem lookupPair_sym_val {x y : String} {vx vy : ℚ}
    (hx : lookupPair (x, y) = some vx) (hy : lookupPair (y, x) = some vy) : vx = vy := by
  obtain ⟨e, he, hek, hev⟩ := lookupPair_mem hx
  obtain ⟨f, hf, hfk, hfv⟩ := lookupPair_mem hy
  have h1 : e.1.1 = f.1.2 := by rw [hek, hfk]
  have h2 : e.1.2 = f.1.1 := by rw [hek, hfk]
  have h3 := city_distances_consistent e he f hf h1 h2
  rw [← hev, ← hfv, h3]

/-- C9: `calculate_distance` is symmetric for every pair of location strings
(the pair is looked up in both orders after trimming and title-case
normalisation, and the table never assigns two different values to the two
orderings of a pair), and every pair absent from the table in both orderings
yields exactly 250.0; the function is total, so it never fails. -/
theorem c9_distance_symmetry_default :
    (∀ a b : String, calculate_distance a b = calculate_distance b a) ∧
    (∀ a b : String,
      lookupPair (normLoc a, normLoc b) = none →
      lookupPair (normLoc b, normLoc a) = none →
      calculate_distance a b = 250) := by
  constructor
  · intro a b
    cases h1 : lookupPair (normLoc a, normLoc b) with
    | some v =>
      cases h2 : lookupPair (normLoc b, normLoc a) with
      | some w =>
        have hvw := lookupPair_sym_val h1 h2
        simp [calculate_distance, h1, h2, hvw]
      | none => simp [calculate_distance, h1, h2]
    | none =>
      cases h2 : lookupPair (normLoc b, normLoc a) with
      | some w => simp [calculate_distance, h1, h2]
      | none => simp [calculate_distance, h1, h2]
  · intro a b h1 h2
    simp [calculate_distance, h1, h2]

/-- C9 witness: a pair absent from the table in both orderings receives the
default 250.0, instantiating the claim theorem. -/
theorem c9_witness : calculate_distance "Austin" "Dallas" = 250 :=
  c9_distance_symmetry_default.2 "Austin" "Dallas" (by decide) (by decide)

/-- C10: because keyword matching in `detect_language` is case-insensitive
substring containment rather than whole-word matching, any text containing
"la" (for example inside the word "popular") is classified "Spanish", and any
text containing "der" (for example inside the word "orders") with no Spanish
keyword substring is classified "German"; consequently the translation chain
runs the two translation steps on such English questions. -/
theorem c10_substring_misdetection :
    (∀ text : String, pyContains (pyLower text) "la" = true →
      detect_language text = "Spanish") ∧
    (∀ text : String, pyContains (pyLower text) "der" = true →
      (∀ k ∈ spanish_keywords, pyContains (pyLower text) k = false) →
      detect_language text = "German") ∧
    (∀ (st : BackendState) (svcF : LCRequest → SvcResult)
        (ext : String → String → String → Option String) (q : String),
      detect_language q ≠ "English" →
      ∃ resp : ChainResponse,
        (query_with_chain st (fun r => Except.ok (svcF r)) ext q "translation").1 =
          Except.ok resp ∧
        resp.chain_steps.map ChainStep.step =
          ["detect_language", "translate_to_english", "voicebox_query",
           "translate_to_source"]) := by
  refine ⟨?_, ?_, ?_⟩
  · intro text h
    unfold detect_language
    have hpos : 0 < spanish_keywords.countP (fun k => pyContains (pyLower text) k) := by
      rw [List.countP_pos_iff]
      exact ⟨"la", by decide, h⟩
    simp [hpos]
  · intro text h hs
    unfold detect_language
    have h0 : spanish_keywords.countP (fun k => pyContains (pyLower text) k) = 0 := by
      rw [List.countP_eq_zero]
      intro k hk
      simp [hs k hk]
    have h1 : 0 < german_keywords.countP (fun k => pyContains (pyLower text) k) := by
      rw [List.countP_pos_iff]
      exact ⟨"der", by decide, h⟩
    simp [h0, h1]
  · intro st svcF ext q h
    have hb : (detect_language q == "English") = false := by
      simp [h]
    simp only [query_with_chain, hb]
    exact ⟨_, rfl, rfl⟩

/-- C10 witness: the English texts "popular products" and "orders" are
misclassified as claimed, and chain mode translates the former, instantiating
the claim theorem. -/
theorem c10_witness :
    detect_language "popular products" = "Spanish" ∧
    detect_language "orders" = "German" ∧
    ∃ resp : ChainResponse,
      (query_with_chain { conversation_id := none }
          (fun r => Except.ok ((fun _ => ({ answer := some "ans", conversation_id := none } : SvcResult)) r))
          (fun _ _ _ => none) "popular products" "translation").1 = Except.ok resp ∧
      resp.chain_steps.map ChainStep.step =
        ["detect_language", "translate_to_english", "voicebox_query",
         "translate_to_source"] := by
  refine ⟨c10_substring_misdetection.1 "popular products" (by decide),
          c10_substring_misdetection.2.1 "orders" (by decide) (by decide),
          c10_substring_misdetection.2.2 { conversation_id := none }
            (fun _ => { answer := some "ans", conversation_id := none })
            (fun _ _ _ => none) "popular products" (by decide)⟩

